import Mathlib

/-!
Shallow embedding of `src/app.py` (eBay price-validation assistant).

External services (the conversation engine, the HTTP search provider,
the JSON argument decoder) are modelled as oracle parameters; the
program logic itself — `get_products`, `call_functions`, the polling
loop of `process_query`, and the module-level startup check — is
translated function by function from the source.  Side effects on the
conversation engine are recorded in an explicit event trace.
-/

namespace App

/-- Run statuses of the conversation engine
(`queued / in_progress / requires_action / completed / failed / cancelled / expired`). -/
inductive RunStatus
  | queued
  | in_progress
  | requires_action
  | completed
  | failed
  | cancelled
  | expired
deriving DecidableEq

/-- `action["function"]` of a pending tool call: a name and a raw JSON
argument string. -/
structure FuncSpec where
  name : String
  arguments : String
deriving DecidableEq

/-- One pending tool call (`action` in the `call_functions` loop):
`action["id"]` and `action["function"]`. -/
structure ToolCall where
  id : String
  function : FuncSpec
deriving DecidableEq

/-- One entry appended to `tool_outputs`:
`{"tool_call_id": action["id"], "output": output}`.  The output is the
return value of `get_products`, which is `None` (here `none`) on the
degraded paths. -/
structure ToolOutput where
  tool_call_id : String
  output : Option String
deriving DecidableEq

/-- Exceptions that can escape the body of the `call_functions` loop:
the explicit `ValueError of an unknown function name`, a failure of
`json.loads` / the `["query"]` lookup on the argument string, or any
other exception raised by a handler invocation. -/
inductive CallError
  | unknownFunction (name : String)
  | argumentDecode
  | handlerRaised
deriving DecidableEq

/-- Observable calls to the outside world, in program order. -/
inductive Event
  | messagesCreate (content : String)
  | runsCreate
  | runsRetrieve
  | searchCall (query : String)
  | submitToolOutputs (run_id : String) (outputs : List ToolOutput)
  | messagesList
deriving DecidableEq

/-- Does an event submit tool outputs to the conversation engine? -/
def isSubmit : Event → Bool
  | Event.submitToolOutputs _ _ => true
  | _ => false

/-- The `price` object of a provider result; `result.get("price", {})`
yields it or an empty dict, and `.get("raw", "N/A")`
reads its `raw` field. -/
structure Price where
  raw : Option String
deriving DecidableEq

/-- One entry of the provider JSON list `organic_results`; every field
is read with `.get`, so each may be absent. -/
structure EbayResult where
  title : Option String
  price : Option Price
  link : Option String
  thumbnail : Option String
deriving DecidableEq

/-- The decoded JSON body of a successful search response;
`data.get("organic_results", [])` makes a missing list behave as `[]`,
so the list is stored directly. -/
structure SearchData where
  organic_results : List EbayResult
deriving DecidableEq

/-- `requests.RequestException`: the transport/HTTP failures caught by
the `try` block in `get_products` (connection errors and the
`raise_for_status` HTTP errors). -/
inductive RequestError
  | requestException
deriving DecidableEq

/-- Python string interpolation of a value that may be `None`:
`f"{x}"` renders `None` as the text `None`. -/
def pyStr : Option String → String
  | some s => s
  | none => "None"

/-- `result.get("price", {}).get("raw", "N/A")`. -/
def priceOf (r : EbayResult) : String :=
  match r.price with
  | none => "N/A"
  | some p => p.raw.getD "N/A"

/-- The four `markdown_output +=` lines of the `get_products` loop for
one provider result. -/
def renderResult (r : EbayResult) : String :=
  ("- **Title:** [" ++ pyStr r.title ++ "](" ++ pyStr r.link ++ ")\n")
    ++ (("  - **Price:** " ++ priceOf r ++ "\n")
    ++ (("  - **Link:** [View on eBay](" ++ pyStr r.link ++ ")\n")
    ++ ("  - **Image:** ![Image](" ++ pyStr r.thumbnail ++ ")\n\n")))

/-- Concatenation of the rendered blocks of a result list, in order. -/
def renderAll : List EbayResult → String
  | [] => ""
  | r :: rs => renderResult r ++ renderAll rs

/-- `get_products(query)` from `src/app.py`.

`serpapi_key` is `os.getenv("SERPAPI")` (absent, or a string that may
be empty — `if not api_key` rejects both); `http_get` is the oracle
for `requests.get(base_url, params).json()` on the query.  The bare
`return` statements of the source return `None`, hence `none`; the
function raises no exception on these paths. -/
def get_products (serpapi_key : Option String)
    (http_get : String → Except RequestError SearchData)
    (query : String) : Option String :=
  match serpapi_key with
  | none => none
  | some api_key =>
    if api_key = "" then none
    else
      match http_get query with
      | Except.error _ => none
      | Except.ok data =>
        let top_3_results := data.organic_results.take 3
        some (top_3_results.foldl (fun markdown_output r =>
          markdown_output ++ renderResult r) "")

/-- A search handler that cannot raise: wraps a total search function
(such as `get_products` with its environment fixed) for use as the
handler oracle of the dispatch loop. -/
def liftSearch (search0 : String → Option String) :
    String → Except CallError (Option String) :=
  fun q => Except.ok (search0 q)

/-- The body of the `for action in required_actions["tool_calls"]`
loop of `call_functions`, accumulating `tool_outputs` and the trace of
handler invocations.  `parse` is the oracle for
`json.loads(action["function"]["arguments"])["query"]`; `search` is
the handler for `"search_ebay"` (the `Except` result lets a handler
invocation raise).  An `Except.error` result models an exception
unwinding out of the loop: later requests are not processed. -/
def processCalls (parse : String → Except CallError String)
    (search : String → Except CallError (Option String)) :
    List ToolCall → Except CallError (List ToolOutput) × List Event
  | [] => (Except.ok [], [])
  | action :: rest =>
    match parse action.function.arguments with
    | Except.error e => (Except.error e, [])
    | Except.ok query =>
      if action.function.name = "search_ebay" then
        match search query with
        | Except.error e => (Except.error e, [Event.searchCall query])
        | Except.ok output =>
          match processCalls parse search rest with
          | (Except.error e, evs) => (Except.error e, Event.searchCall query :: evs)
          | (Except.ok outs, evs) =>
            (Except.ok (ToolOutput.mk action.id output :: outs),
             Event.searchCall query :: evs)
      else
        (Except.error (CallError.unknownFunction action.function.name), [])

/-- `call_functions(required_actions, run_id)` from `src/app.py`: runs
the dispatch loop over `required_actions["tool_calls"]` and, only if
the whole loop finishes, performs the single
`submit_tool_outputs(run_id=run_id, tool_outputs=tool_outputs)` call.
An exception inside the loop propagates and the submit line is never
reached. -/
def call_functions (parse : String → Except CallError String)
    (search : String → Except CallError (Option String))
    (required_tool_calls : List ToolCall) (run_id : String) :
    Except CallError (List ToolOutput) × List Event :=
  match processCalls parse search required_tool_calls with
  | (Except.ok tool_outputs, evs) =>
    (Except.ok tool_outputs, evs ++ [Event.submitToolOutputs run_id tool_outputs])
  | (Except.error e, evs) => (Except.error e, evs)

/-- One `content` element of a thread message; `content[0].text.value`
reads `text_value`. -/
structure MsgContent where
  text_value : String
deriving DecidableEq

/-- One message of `messages.list(...).data`. -/
structure Message where
  content : List MsgContent
deriving DecidableEq

/-- The run state returned by one `runs.retrieve` poll: its `status`
and, for `requires_action`, the pending tool calls of
`required_action.submit_tool_outputs.model_dump()["tool_calls"]`. -/
structure RunState where
  status : RunStatus
  tool_calls : List ToolCall

/-- The external world seen by one `process_query` call: the id of the
created run, the run state observed by the n-th poll, the message list
returned at completion, and the oracles used by dispatch. -/
structure Engine where
  run_id : String
  retrieve : Nat → RunState
  messages : List Message
  parse : String → Except CallError String
  search : String → Except CallError (Option String)

/-- Exceptions that can escape `process_query`: a dispatch exception
propagating out of `call_functions`, or the `IndexError` of
`data[0]` / `content[0]` on an empty list. -/
inductive RuntimeError
  | dispatchFailed (e : CallError)
  | indexError
deriving DecidableEq

/-- `data[0].content[0].text.value` on the completed run:
`messages.list` data with the newest message first; empty indexing
raises `IndexError`. -/
def extractReply (msgs : List Message) : Except RuntimeError String :=
  match msgs with
  | [] => Except.error RuntimeError.indexError
  | m :: _ =>
    match m.content with
    | [] => Except.error RuntimeError.indexError
    | c :: _ => Except.ok c.text_value

/-- The `while True` poll loop of `process_query`, with fuel counting
the polls still allowed: a `none` result means the loop is still
running after that many polls.  `n` is the index of the current poll.

The source checks `requires_action` and `completed` in two separate
`if` statements on the same unchanged local `response_status`, so
after a `requires_action` dispatch the `completed` test is false and
the `else: continue` branch runs; the nesting below is therefore
equivalent to the flat test sequence of the source. -/
def pollLoop (eng : Engine) (run_id : String) :
    Nat → Nat → Option (Except RuntimeError String) × List Event
  | _, 0 => (none, [])
  | n, fuel + 1 =>
    let response_status := eng.retrieve n
    if response_status.status = RunStatus.requires_action then
      match call_functions eng.parse eng.search response_status.tool_calls run_id with
      | (Except.error e, evs) =>
        (some (Except.error (RuntimeError.dispatchFailed e)), Event.runsRetrieve :: evs)
      | (Except.ok _, evs) =>
        let next := pollLoop eng run_id (n + 1) fuel
        (next.fst, Event.runsRetrieve :: (evs ++ next.snd))
    else if response_status.status = RunStatus.completed then
      (some (extractReply eng.messages), [Event.runsRetrieve, Event.messagesList])
    else
      let next := pollLoop eng run_id (n + 1) fuel
      (next.fst, Event.runsRetrieve :: next.snd)

/-- `process_query(user_query, interaction_history=[])` from
`src/app.py`: appends the user message, creates a run, then polls.
The `interaction_history` parameter supplied by the chat UI is
accepted and never read by the body. -/
def process_query (eng : Engine) (user_query : String)
    (interaction_history : List (String × String)) (fuel : Nat) :
    Option (Except RuntimeError String) × List Event :=
  let created := [Event.messagesCreate user_query, Event.runsCreate]
  let looped := pollLoop eng eng.run_id 0 fuel
  (looped.fst, created ++ looped.snd)

/-- The module-level startup failure: `EnvironmentError` raised when
`OPENAI_API_KEY` is missing. -/
inductive EnvError
  | missingApiKey
deriving DecidableEq

/-- The module-level check of `src/app.py` lines 10-15:
`api_key = os.getenv("OPENAI_API_KEY")`, then
`if not api_key: raise EnvironmentError(...)` — failing both for an
absent variable and for an empty string. -/
def startup_check (api_key : Option String) : Except EnvError Unit :=
  match api_key with
  | none => Except.error EnvError.missingApiKey
  | some s => if s = "" then Except.error EnvError.missingApiKey else Except.ok ()

/-- The parts of module initialization that make the process able to
serve queries, in source order. -/
inductive StartupStep
  | clientCreated
  | assistantCreated
  | threadCreated
  | launched
deriving DecidableEq

/-- Module initialization of `src/app.py`: the client object is built
first (the external constructor itself also rejects a missing key;
modelled as succeeding so that the in-source check decides), then the
`if not api_key` check runs, and only past it are the assistant, the
conversation thread and the UI server (`demo.launch()`) created. -/
def module_init (openai_key : Option String) : Except EnvError (List StartupStep) :=
  match startup_check openai_key with
  | Except.error e => Except.error e
  | Except.ok _ =>
    Except.ok [StartupStep.clientCreated, StartupStep.assistantCreated,
               StartupStep.threadCreated, StartupStep.launched]


/-- Engine whose run is stuck at the terminal status `failed`; used as a
concrete instance of a status sequence in which `completed` never occurs. -/
def engineFailedRun : Engine :=
  ⟨"run_1", fun _ => ⟨RunStatus.failed, []⟩, [], fun s => Except.ok s,
   fun _ => Except.ok none⟩

/-- Engine whose run is already `completed`, with one reply message. -/
def engineCompletedRun : Engine :=
  ⟨"run_1", fun _ => ⟨RunStatus.completed, []⟩, [⟨[⟨"the reply"⟩]⟩],
   fun s => Except.ok s, fun _ => Except.ok none⟩

/-- Two pending calls, both for the registered function `search_ebay`. -/
def sampleCalls : List ToolCall :=
  [⟨"call_1", ⟨"search_ebay", "a1"⟩⟩, ⟨"call_2", ⟨"search_ebay", "a2"⟩⟩]

/-- One pending call for an unregistered function name. -/
def badCalls : List ToolCall := [⟨"call_1", ⟨"lookup_amazon", "a1"⟩⟩]

/-- One pending call for the registered function. -/
def singleCall : List ToolCall := [⟨"call_1", ⟨"search_ebay", "a1"⟩⟩]

/-- A successful response carrying two listings, the second without a
price object. -/
def sampleData : SearchData :=
  ⟨[⟨some "t1", some ⟨some "$5.00"⟩, some "l1", some "i1"⟩,
    ⟨some "t2", none, some "l2", none⟩]⟩

/-- A listing with no price object. -/
def sampleNoPrice : EbayResult := ⟨some "t2", none, some "l2", some "i2"⟩

lemma foldl_render (l : List EbayResult) :
    ∀ s : String, l.foldl (fun md r => md ++ renderResult r) s = s ++ renderAll l := by
  induction l with
  | nil => intro s; simp [renderAll, String.append_empty]
  | cons r rs ih =>
    intro s
    simp only [List.foldl_cons, renderAll, ih, String.append_assoc]

lemma processCalls_ok_spec (parse : String → Except CallError String)
    (search0 : String → Option String) (qf : ToolCall → String) :
    ∀ calls : List ToolCall,
      (∀ c ∈ calls, c.function.name = "search_ebay") →
      (∀ c ∈ calls, parse c.function.arguments = Except.ok (qf c)) →
      processCalls parse (liftSearch search0) calls
        = (Except.ok (calls.map fun c => ToolOutput.mk c.id (search0 (qf c))),
           calls.map fun c => Event.searchCall (qf c)) := by
  intro calls
  induction calls with
  | nil => intro _ _; rfl
  | cons action rest ih =>
    intro hname hparse
    have h1 := hparse action (by simp)
    have h2 := hname action (by simp)
    have ihr := ih (fun c hc => hname c (by simp [hc]))
      (fun c hc => hparse c (by simp [hc]))
    simp [processCalls, h1, h2, liftSearch, ihr]

lemma processCalls_snd_search (parse : String → Except CallError String)
    (search : String → Except CallError (Option String)) :
    ∀ (calls : List ToolCall) (ev : Event),
      ev ∈ (processCalls parse search calls).snd → ∃ q, ev = Event.searchCall q := by
  intro calls
  induction calls with
  | nil => intro ev h; simp [processCalls] at h
  | cons action rest ih =>
    intro ev h
    simp only [processCalls] at h
    split at h
    · simp at h
    · split at h
      · split at h
        · simp at h
          exact ⟨_, h⟩
        · split at h
          · simp at h
            rcases h with h | h
            · exact ⟨_, h⟩
            · rename_i heq _ _ _ _ _ hpair
              exact ih ev (by rw [hpair]; exact h)
          · simp at h
            rcases h with h | h
            · exact ⟨_, h⟩
            · rename_i heq _ _ _ _ _ hpair
              exact ih ev (by rw [hpair]; exact h)
      · simp at h


lemma processCalls_unknown (parse : String → Except CallError String)
    (search0 : String → Option String) (qf : ToolCall → String) :
    ∀ calls : List ToolCall,
      (∀ c ∈ calls, parse c.function.arguments = Except.ok (qf c)) →
      (∃ c ∈ calls, c.function.name ≠ "search_ebay") →
      ∃ nm, nm ≠ "search_ebay" ∧
        (processCalls parse (liftSearch search0) calls).fst
          = Except.error (CallError.unknownFunction nm) := by
  intro calls
  induction calls with
  | nil => intro _ hbad; simp at hbad
  | cons action rest ih =>
    intro hparse hbad
    have h1 := hparse action (by simp)
    by_cases hn : action.function.name = "search_ebay"
    · have hbadr : ∃ c ∈ rest, c.function.name ≠ "search_ebay" := by
        rcases hbad with ⟨c, hc, hne⟩
        rcases List.mem_cons.mp hc with rfl | hcr
        · exact absurd hn hne
        · exact ⟨c, hcr, hne⟩
      obtain ⟨nm, hnm, herr⟩ := ih (fun c hc => hparse c (by simp [hc])) hbadr
      refine ⟨nm, hnm, ?_⟩
      rcases hr : processCalls parse (liftSearch search0) rest with ⟨r, evs⟩
      rw [hr] at herr
      simp only at herr
      subst herr
      simp [processCalls, h1, hn, liftSearch, hr]
    · exact ⟨action.function.name, hn, by simp [processCalls, h1, hn]⟩

lemma call_functions_snd_of_error (parse : String → Except CallError String)
    (search : String → Except CallError (Option String))
    (calls : List ToolCall) (rid : String) (e : CallError)
    (herr : (call_functions parse search calls rid).fst = Except.error e) :
    ∀ ev ∈ (call_functions parse search calls rid).snd, isSubmit ev = false := by
  intro ev hev
  rcases hr : processCalls parse search calls with ⟨r, evs⟩
  cases r with
  | ok outs =>
    rw [call_functions, hr] at herr
    simp at herr
  | error e2 =>
    rw [call_functions, hr] at hev
    simp only at hev
    obtain ⟨q, hq⟩ := processCalls_snd_search parse search calls ev (by rw [hr]; exact hev)
    subst hq
    rfl


lemma pollLoop_fst_ok_completed (eng : Engine) (rid : String) :
    ∀ (fuel n : Nat) (s : String),
      (pollLoop eng rid n fuel).fst = some (Except.ok s) →
      ∃ k, (eng.retrieve k).status = RunStatus.completed := by
  intro fuel
  induction fuel with
  | zero => intro n s h; simp [pollLoop] at h
  | succ fuel ih =>
    intro n s h
    simp only [pollLoop] at h
    by_cases hra : (eng.retrieve n).status = RunStatus.requires_action
    · rw [if_pos hra] at h
      rcases hcf : call_functions eng.parse eng.search (eng.retrieve n).tool_calls rid
        with ⟨r, evs⟩
      rw [hcf] at h
      cases r with
      | error e => simp at h
      | ok outs =>
        simp only at h
        exact ih (n + 1) s h
    · by_cases hco : (eng.retrieve n).status = RunStatus.completed
      · exact ⟨n, hco⟩
      · rw [if_neg hra, if_neg hco] at h
        simp only at h
        exact ih (n + 1) s h

lemma pollLoop_none_no_completed (eng : Engine) (rid : String)
    (hc : ∀ k, (eng.retrieve k).status ≠ RunStatus.completed)
    (hd : ∀ k, (eng.retrieve k).status = RunStatus.requires_action →
      (call_functions eng.parse eng.search (eng.retrieve k).tool_calls rid).fst.isOk = true) :
    ∀ fuel n, (pollLoop eng rid n fuel).fst = none := by
  intro fuel
  induction fuel with
  | zero => intro n; rfl
  | succ fuel ih =>
    intro n
    simp only [pollLoop]
    by_cases hra : (eng.retrieve n).status = RunStatus.requires_action
    · rw [if_pos hra]
      rcases hcf : call_functions eng.parse eng.search (eng.retrieve n).tool_calls rid
        with ⟨r, evs⟩
      cases r with
      | error e =>
        have hok := hd n hra
        rw [hcf] at hok
        simp [Except.isOk, Except.toBool] at hok
      | ok outs =>
        simp only
        exact ih (n + 1)
    · rw [if_neg hra, if_neg (hc n)]
      simp only
      exact ih (n + 1)


/-- Claim C1: `process_query` returns only when a poll observes run status
`completed`; for every polled status sequence in which `completed` never
occurs — including sequences ending in the terminal failure statuses
`failed`, `cancelled` or `expired` — the poll loop keeps running past any
number of polls and `process_query` never returns.  The second part
additionally assumes every `requires_action` dispatch returns normally,
since a dispatch exception would abort the loop by raising rather than
by returning. -/
theorem process_query_returns_only_on_completed (eng : Engine) (q : String)
    (hist : List (String × String)) :
    (∀ fuel s, (process_query eng q hist fuel).fst = some (Except.ok s) →
      ∃ k, (eng.retrieve k).status = RunStatus.completed)
    ∧ ((∀ k, (eng.retrieve k).status ≠ RunStatus.completed) →
      (∀ k, (eng.retrieve k).status = RunStatus.requires_action →
        (call_functions eng.parse eng.search
          (eng.retrieve k).tool_calls eng.run_id).fst.isOk = true) →
      ∀ fuel, (process_query eng q hist fuel).fst = none) :=
  ⟨fun fuel s h => pollLoop_fst_ok_completed eng eng.run_id fuel 0 s h,
   fun hc hd fuel => pollLoop_none_no_completed eng eng.run_id hc hd fuel 0⟩

/-- Witness for C1: on a run stuck at `failed` the loop is still running
after 5 polls, and a reply is only obtained from an engine that does
report `completed`. -/
theorem process_query_returns_only_on_completed_witness :
    (process_query engineFailedRun "query" [] 5).fst = none
    ∧ ∃ k, (engineCompletedRun.retrieve k).status = RunStatus.completed :=
  ⟨(process_query_returns_only_on_completed engineFailedRun "query" []).2
      (fun _ h => nomatch h) (fun _ h => nomatch h) 5,
   (process_query_returns_only_on_completed engineCompletedRun "query" []).1 1 "the reply"
      (by rfl)⟩

/-- Claim C2: when every pending tool call bears the registered name
`search_ebay` (and its argument string decodes), dispatch produces
exactly one tool output per request, carrying the id of its request, in
request order, and the whole batch goes to the conversation engine in a
single `submit_tool_outputs` call tagged with the given run id. -/
theorem call_functions_one_output_per_request
    (parse : String → Except CallError String) (search0 : String → Option String)
    (calls : List ToolCall) (rid : String) (qf : ToolCall → String)
    (hname : ∀ c ∈ calls, c.function.name = "search_ebay")
    (hparse : ∀ c ∈ calls, parse c.function.arguments = Except.ok (qf c)) :
    ∃ outs, (call_functions parse (liftSearch search0) calls rid).fst = Except.ok outs
      ∧ outs.map (fun o => o.tool_call_id) = calls.map (fun c => c.id)
      ∧ (call_functions parse (liftSearch search0) calls rid).snd.filter isSubmit
          = [Event.submitToolOutputs rid outs] := by
  have hps := processCalls_ok_spec parse search0 qf calls hname hparse
  refine ⟨calls.map fun c => ToolOutput.mk c.id (search0 (qf c)), ?_, ?_, ?_⟩
  · rw [call_functions, hps]
  · simp [List.map_map, Function.comp]
  · rw [call_functions, hps]
    simp only [List.filter_append]
    have h1 : (calls.map fun c => Event.searchCall (qf c)).filter isSubmit = [] :=
      List.filter_eq_nil_iff.mpr (fun a ha => by
        obtain ⟨c, _, rfl⟩ := List.mem_map.mp ha
        simp [isSubmit])
    rw [h1]
    rfl

/-- Witness for C2: two registered calls are dispatched and one submit
event reaches the engine. -/
theorem call_functions_one_output_per_request_witness :
    (call_functions Except.ok (liftSearch fun _ => some "x") sampleCalls "run_9").snd.any
      isSubmit = true := by
  obtain ⟨outs, h1, h2, h3⟩ := call_functions_one_output_per_request Except.ok
    (fun _ => some "x") sampleCalls "run_9" (fun c => c.function.arguments)
    (by decide) (fun c _ => rfl)
  have hm : Event.submitToolOutputs "run_9" outs
      ∈ (call_functions Except.ok (liftSearch fun _ => some "x") sampleCalls "run_9").snd :=
    List.mem_of_mem_filter (h3 ▸ List.mem_singleton_self _)
  exact List.any_eq_true.mpr ⟨_, hm, rfl⟩


/-- Claim C3: a pending list containing a request whose function name is
not `search_ebay` makes `call_functions` raise the
`ValueError of an unknown function name` of the dispatch loop (provided
every argument string up to that point decodes), and nothing is
submitted — the request is never silently dropped. -/
theorem call_functions_unknown_function_raises
    (parse : String → Except CallError String) (search0 : String → Option String)
    (calls : List ToolCall) (rid : String) (qf : ToolCall → String)
    (hparse : ∀ c ∈ calls, parse c.function.arguments = Except.ok (qf c))
    (hbad : ∃ c ∈ calls, c.function.name ≠ "search_ebay") :
    ∃ nm, nm ≠ "search_ebay"
      ∧ (call_functions parse (liftSearch search0) calls rid).fst
          = Except.error (CallError.unknownFunction nm)
      ∧ ∀ ev ∈ (call_functions parse (liftSearch search0) calls rid).snd,
          isSubmit ev = false := by
  obtain ⟨nm, hnm, herr⟩ := processCalls_unknown parse search0 qf calls hparse hbad
  have hfst : (call_functions parse (liftSearch search0) calls rid).fst
      = Except.error (CallError.unknownFunction nm) := by
    rcases hr : processCalls parse (liftSearch search0) calls with ⟨r, evs⟩
    rw [hr] at herr
    simp only at herr
    subst herr
    rw [call_functions, hr]
  exact ⟨nm, hnm, hfst,
    call_functions_snd_of_error parse (liftSearch search0) calls rid _ hfst⟩

/-- Witness for C3: a single call to the unregistered `lookup_amazon`
leaves dispatch in the raising state, with no ok batch. -/
theorem call_functions_unknown_function_raises_witness :
    (call_functions Except.ok (liftSearch fun _ => some "x") badCalls "run_9").fst.isOk
      = false := by
  obtain ⟨nm, _, hfst, _⟩ := call_functions_unknown_function_raises Except.ok
    (fun _ => some "x") badCalls "run_9" (fun c => c.function.arguments)
    (fun c _ => rfl) (by decide)
  rw [hfst]
  rfl

/-- Claim C4: dispatch is atomic with respect to submission — whenever
the loop of `call_functions` raises (an unknown function name, an
argument-decode failure, or any handler invocation raising), the
`submit_tool_outputs` call is never reached: no submit event occurs in
the trace, not even for outputs already collected for earlier requests
of the batch. -/
theorem call_functions_error_no_submit
    (parse : String → Except CallError String)
    (search : String → Except CallError (Option String))
    (calls : List ToolCall) (rid : String) (e : CallError)
    (herr : (call_functions parse search calls rid).fst = Except.error e) :
    ∀ ev ∈ (call_functions parse search calls rid).snd, isSubmit ev = false :=
  call_functions_snd_of_error parse search calls rid e herr

/-- Witness for C4: with a handler that raises on the second of two
registered calls, no submit event appears in the trace. -/
theorem call_functions_error_no_submit_witness :
    (call_functions Except.ok
      (fun q => if q = "a2" then Except.error CallError.handlerRaised else Except.ok none)
      sampleCalls "run_9").snd.any isSubmit = false := by
  rw [List.any_eq_false]
  intro ev hev
  simpa using call_functions_error_no_submit Except.ok
    (fun q => if q = "a2" then Except.error CallError.handlerRaised else Except.ok none)
    sampleCalls "run_9" CallError.handlerRaised rfl ev hev

/-- Claim C5: whenever the `SERPAPI` credential is absent (and likewise
when it is empty, which `if not api_key` also rejects) or the HTTP
request fails with a `requests.RequestException`, `get_products`
returns `None`; both degraded paths end in a plain `return`, so no
exception is raised. -/
theorem get_products_degraded_none
    (serp : Option String) (http : String → Except RequestError SearchData) (q : String)
    (h : serp = none ∨ http q = Except.error RequestError.requestException) :
    get_products serp http q = none := by
  rcases h with rfl | herr
  · rfl
  · cases serp with
    | none => rfl
    | some key =>
      by_cases hk : key = ""
      · simp [get_products, hk]
      · simp [get_products, hk, herr]

/-- Witness for C5: a missing credential, and separately a failing HTTP
request, both produce `none`. -/
theorem get_products_degraded_none_witness :
    get_products none (fun _ => Except.ok ⟨[]⟩) "shoes" = none
    ∧ get_products (some "k") (fun _ => Except.error RequestError.requestException)
        "shoes" = none :=
  ⟨get_products_degraded_none none (fun _ => Except.ok ⟨[]⟩) "shoes" (Or.inl rfl),
   get_products_degraded_none (some "k")
     (fun _ => Except.error RequestError.requestException) "shoes" (Or.inr rfl)⟩

/-- Claim C6: on a successful search response, `get_products` returns
exactly the concatenated fixed-layout blocks of the first
`min 3 n` entries of the provider list `organic_results`, in provider
order, and the empty string when there are zero entries. -/
theorem get_products_success_top3
    (key : String) (http : String → Except RequestError SearchData) (q : String)
    (data : SearchData) (hkey : key ≠ "") (hok : http q = Except.ok data) :
    get_products (some key) http q = some (renderAll (data.organic_results.take 3))
    ∧ (data.organic_results.take 3).length = min 3 data.organic_results.length
    ∧ (data.organic_results = [] → get_products (some key) http q = some "") := by
  have hmain : get_products (some key) http q
      = some (renderAll (data.organic_results.take 3)) := by
    simp only [get_products, if_neg hkey, hok]
    rw [foldl_render, String.empty_append]
  refine ⟨hmain, List.length_take 3 _, fun hnil => ?_⟩
  rw [hmain, hnil]
  rfl


/-- Witness for C6: a concrete successful two-listing response renders
both blocks in order. -/
theorem get_products_success_top3_witness :
    get_products (some "k") (fun _ => Except.ok sampleData) "shoes"
      = some (renderAll (sampleData.organic_results.take 3))
    ∧ (sampleData.organic_results.take 3).length
        = min 3 sampleData.organic_results.length :=
  ⟨(get_products_success_top3 "k" (fun _ => Except.ok sampleData) "shoes" sampleData
      (by decide) rfl).1,
   (get_products_success_top3 "k" (fun _ => Except.ok sampleData) "shoes" sampleData
      (by decide) rfl).2.1⟩

/-- Claim C7: a provider entry with no price object renders its price as
exactly the literal `N/A`: both the extracted price string and the
price line of the rendered block show `N/A`. -/
theorem renderResult_missing_price
    (r : EbayResult) (hp : r.price = none) :
    priceOf r = "N/A"
    ∧ ∃ pre post, renderResult r = pre ++ ("  - **Price:** N/A\n" ++ post) := by
  have hpr : priceOf r = "N/A" := by simp [priceOf, hp]
  refine ⟨hpr, "- **Title:** [" ++ pyStr r.title ++ "](" ++ pyStr r.link ++ ")\n",
    ("  - **Link:** [View on eBay](" ++ pyStr r.link ++ ")\n")
      ++ ("  - **Image:** ![Image](" ++ pyStr r.thumbnail ++ ")\n\n"), ?_⟩
  have hline : "  - **Price:** " ++ priceOf r ++ "\n" = "  - **Price:** N/A\n" := by
    rw [hpr]
    decide
  rw [renderResult, hline]


/-- Witness for C7: the price of a concrete priceless listing renders as
`N/A`. -/
theorem renderResult_missing_price_witness :
    priceOf sampleNoPrice = "N/A" :=
  (renderResult_missing_price sampleNoPrice rfl).1


/-- Claim C8: with `OPENAI_API_KEY` absent from the environment, module
initialization fails with the startup `EnvironmentError`: the result is
the error, not a step list, so the assistant, the conversation thread
and the UI server (`demo.launch()`) are never created and no query can
ever be processed. -/
theorem module_init_missing_key_fatal :
    module_init none = Except.error EnvError.missingApiKey := rfl

/-- Claim C9: `process_query` never reads its `interaction_history`
parameter — for one and the same external world and user query, any two
histories give the identical result and the identical trace of external
calls, so the UI-supplied chat history has no influence on the answer. -/
theorem process_query_ignores_interaction_history (eng : Engine) (q : String)
    (hist1 hist2 : List (String × String)) (fuel : Nat) :
    process_query eng q hist1 fuel = process_query eng q hist2 fuel := rfl

/-- Claim C10: when `get_products` returns the degraded sentinel `None`,
`call_functions` still appends a tool output whose `output` field is
exactly that `None` and submits it unchanged in the batch — the
dispatcher never filters, replaces, or errors on the sentinel, so the
conversation engine receives a null output for that call. -/
theorem call_functions_submits_none_sentinel
    (serp : Option String) (http : String → Except RequestError SearchData)
    (parse : String → Except CallError String)
    (calls : List ToolCall) (rid : String) (qf : ToolCall → String) (c : ToolCall)
    (hname : ∀ d ∈ calls, d.function.name = "search_ebay")
    (hparse : ∀ d ∈ calls, parse d.function.arguments = Except.ok (qf d))
    (hc : c ∈ calls)
    (hnone : get_products serp http (qf c) = none) :
    ∃ outs,
      (call_functions parse (liftSearch (get_products serp http)) calls rid).fst
        = Except.ok outs
      ∧ outs.length = calls.length
      ∧ ToolOutput.mk c.id none ∈ outs
      ∧ (call_functions parse (liftSearch (get_products serp http)) calls rid).snd.filter
          isSubmit = [Event.submitToolOutputs rid outs] := by
  have hps := processCalls_ok_spec parse (get_products serp http) qf calls hname hparse
  refine ⟨calls.map fun d => ToolOutput.mk d.id (get_products serp http (qf d)),
    ?_, ?_, ?_, ?_⟩
  · rw [call_functions, hps]
  · simp
  · rw [← hnone]
    exact List.mem_map_of_mem (fun d => ToolOutput.mk d.id (get_products serp http (qf d))) hc
  · rw [call_functions, hps]
    simp only [List.filter_append]
    have h1 : (calls.map fun d => Event.searchCall (qf d)).filter isSubmit = [] :=
      List.filter_eq_nil_iff.mpr (fun a ha => by
        obtain ⟨d, _, rfl⟩ := List.mem_map.mp ha
        simp [isSubmit])
    rw [h1]
    rfl

/-- Witness for C10: with the credential absent, the single registered
call yields the sentinel, and the batch submitted to the engine carries
exactly the null output for that call. -/
theorem call_functions_submits_none_sentinel_witness :
    Event.submitToolOutputs "run_9" [ToolOutput.mk "call_1" none]
      ∈ (call_functions Except.ok
          (liftSearch (get_products none fun _ => Except.ok ⟨[]⟩))
          singleCall "run_9").snd := by
  obtain ⟨outs, h1, hlen, hmem, hsub⟩ := call_functions_submits_none_sentinel none
    (fun _ => Except.ok ⟨[]⟩) Except.ok singleCall "run_9"
    (fun d => d.function.arguments) ⟨"call_1", ⟨"search_ebay", "a1"⟩⟩
    (by decide) (fun d _ => rfl) (by decide) rfl
  have he : Except.ok (ε := CallError) outs
      = Except.ok [ToolOutput.mk "call_1" none] := by
    rw [← h1]
    rfl
  cases he
  exact List.mem_of_mem_filter (hsub ▸ List.mem_singleton_self _)

end App
